import Mathlib

/-!
Shallow embedding of the liveness-heartbeat subsystem and alert state
machine of the swat-collector service (src/main.rs, src/health_check/mod.rs,
src/health_check/unix.rs, src/webhook.rs).

Time is modelled in nanoseconds since the Unix epoch: `SystemTime` values
are natural numbers of nanoseconds (`SystemTime::now()` on a deployment
clock at or after the epoch), `Duration` values are natural numbers of
nanoseconds.  Byte buffers are lists of naturals (each meant `< 256`,
matching `u8`); the wire integer uses the host's native byte order, which
on the x86-64/aarch64 deployment targets is little-endian.
-/

namespace Swat

/-- Nanoseconds per second, the resolution of `std::time::Duration`. -/
def NANOS_PER_SEC : Nat := 1000000000

/-- Constant `HEALTHY_UPDATE_TIME = Duration::from_secs(3 * 60)`
(src/health_check/mod.rs, non-test value), in nanoseconds. -/
def HEALTHY_UPDATE_TIME : Nat := 3 * 60 * NANOS_PER_SEC

/-- Constant `HEALTHY: u8 = 0` (src/health_check/mod.rs). -/
def HEALTHY : Nat := 0

/-- Constant `UNHEALTHY: u8 = 1` (src/health_check/mod.rs). -/
def UNHEALTHY : Nat := 1

/-- Abstract kind of a `std::io::Error`; the serve loop only ever inspects
whether the kind is `WouldBlock`. -/
inductive IOErrorKind where
  | wouldBlock
  | other
deriving DecidableEq, Repr

/-- Abstract `std::io::Error`: only its kind is ever inspected. -/
structure IOError where
  kind : IOErrorKind
deriving DecidableEq, Repr

/-- Error type `HealthError` (src/health_check/unix.rs), one constructor per variant,
each carrying the underlying I/O error. -/
inductive HealthError where
  | Create (e : IOError)
  | ConnectSocket (e : IOError)
  | SocketReady (e : IOError)
  | ReadSocket (e : IOError)
  | WriteSocket (e : IOError)
deriving DecidableEq, Repr

/-- Encoding `u64::to_ne_bytes` on the little-endian deployment host: the eight
bytes of `n`, least significant first. -/
def to_ne_bytes (n : Nat) : List Nat :=
  [n % 256, n / 256 % 256, n / 256 ^ 2 % 256, n / 256 ^ 3 % 256,
   n / 256 ^ 4 % 256, n / 256 ^ 5 % 256, n / 256 ^ 6 % 256, n / 256 ^ 7 % 256]

/-- Decoding `u64::from_ne_bytes` on the little-endian deployment host: decode the
first eight bytes, least significant first (`% 256` reflects that each
entry is a `u8`). -/
def u64_from_ne_bytes (buf : List Nat) : Nat :=
  (buf.take 8).foldr (fun b acc => b % 256 + 256 * acc) 0

/-- The probe's read buffer `let mut buf = [0; 8]` after `try_read`
delivered `bytes`: the delivered bytes overwrite the front, the rest stays
zero. -/
def read_into_buf (bytes : List Nat) : List Nat :=
  bytes.take 8 ++ List.replicate (8 - bytes.length) 0

/-- Outcomes of the single probe connection's I/O operations, together with
the prober's clock, abstracting the socket environment `check_impl` runs in
(src/health_check/unix.rs lines 84-101).  `tryRead` yields the bytes the
peer delivered into the 8-byte buffer (fewer than 8 on a short reply). -/
structure ProbeConn where
  connect : Except IOError Unit
  writeReady : Except IOError Unit
  tryWritePing : Except IOError Nat
  readReady : Except IOError Unit
  tryRead : Except IOError (List Nat)
  now : Nat

/-- Probe body `check_impl` (src/health_check/unix.rs lines 84-101): connect, wait
writable, write one ping byte, wait readable, read into the 8-byte buffer,
decode native-endian seconds, and compare the elapsed time against
`HEALTHY_UPDATE_TIME`; a decoded time later than `now` (an `elapsed()`
error) is healthy.  This version models the panic-free executions: for
decoded seconds above `i64::MAX` the Rust line
`SystemTime::UNIX_EPOCH + Duration::from_secs(secs)` panics instead of
producing a verdict — `check_impl_run` below models that path too, and the
theorems built on this version only use it where the decoded seconds fit
in `i64`. -/
def check_impl (c : ProbeConn) : Except HealthError Bool := do
  let _ ← c.connect.mapError HealthError.ConnectSocket
  let _ ← c.writeReady.mapError HealthError.SocketReady
  let _ ← c.tryWritePing.mapError HealthError.WriteSocket
  let _ ← c.readReady.mapError HealthError.SocketReady
  let bytes ← c.tryRead.mapError HealthError.ReadSocket
  let secs := u64_from_ne_bytes (read_into_buf bytes)
  let time := secs * NANOS_PER_SEC
  if c.now < time then
    pure true
  else
    pure (decide (c.now - time < HEALTHY_UPDATE_TIME))

/-- Probe entrypoint `check` (src/health_check/unix.rs lines 72-82): collapse the probe
result to the process exit code, `HEALTHY` on `Ok(true)`, `UNHEALTHY` on
`Ok(false)` and on every error. -/
def check (c : ProbeConn) : Nat :=
  match check_impl c with
  | .ok true => HEALTHY
  | .ok false => UNHEALTHY
  | .error _ => UNHEALTHY

/-- A probe connection whose socket operations all succeed and whose read
delivers `bytes`. -/
def okConn (now : Nat) (bytes : List Nat) : ProbeConn :=
  { connect := .ok (), writeReady := .ok (), tryWritePing := .ok 1,
    readReady := .ok (), tryRead := .ok bytes, now := now }

/-- Constant `i64::MAX`, the maximum `tv_sec` a unix `SystemTime` can
hold. -/
def I64_MAX : Nat := 9223372036854775807

/-- Exit status 101, with which a Rust process aborts on an unwound
panic. -/
def PANIC_EXIT : Nat := 101

/-- Outcome of one probe run including the panic path: `ok` and `error`
are `check_impl` returning `Ok`/`Err`; `panic` is the
`checked_add(...).expect("overflow when adding duration to instant")`
inside `SystemTime::UNIX_EPOCH + Duration::from_secs(secs)` firing. -/
inductive ProbeOutcome where
  | ok (healthy : Bool)
  | error (e : HealthError)
  | panic
deriving DecidableEq, Repr

/-- Faithful probe body including the overflow panic
(src/health_check/unix.rs lines 84-101, on a 64-bit unix target): as
`check_impl`, except that when the decoded seconds exceed `i64::MAX` the
addition `SystemTime::UNIX_EPOCH + Duration::from_secs(secs)` overflows
the `i64` seconds field of `SystemTime` and panics instead of returning a
verdict. -/
def check_impl_run (c : ProbeConn) : ProbeOutcome :=
  match c.connect with
  | .error e => .error (HealthError.ConnectSocket e)
  | .ok _ =>
    match c.writeReady with
    | .error e => .error (HealthError.SocketReady e)
    | .ok _ =>
      match c.tryWritePing with
      | .error e => .error (HealthError.WriteSocket e)
      | .ok _ =>
        match c.readReady with
        | .error e => .error (HealthError.SocketReady e)
        | .ok _ =>
          match c.tryRead with
          | .error e => .error (HealthError.ReadSocket e)
          | .ok bytes =>
            let secs := u64_from_ne_bytes (read_into_buf bytes)
            if I64_MAX < secs then ProbeOutcome.panic
            else
              let time := secs * NANOS_PER_SEC
              if c.now < time then ProbeOutcome.ok true
              else ProbeOutcome.ok
                (decide (c.now - time < HEALTHY_UPDATE_TIME))

/-- Process outcome of the probe invocation including the panic path: as
`check`, except that a panic unwinds out of `check_impl` and aborts the
process with the panic exit status instead of an `ExitCode`. -/
def check_run (c : ProbeConn) : Nat :=
  match check_impl_run c with
  | .ok true => HEALTHY
  | .ok false => UNHEALTHY
  | .error _ => UNHEALTHY
  | .panic => PANIC_EXIT

/-- Initial value of the heartbeat clock `LAST_DB_WRITE`, a
`parking_lot::Mutex<SystemTime>` initialised to `UNIX_EPOCH`
(src/health_check/mod.rs lines 19-20).  `SystemTime` values are integers of
nanoseconds relative to the epoch (the type can represent pre-epoch
instants). -/
def LAST_DB_WRITE_init : Int := 0

/-- Values the heartbeat clock can hold: it starts at `LAST_DB_WRITE_init`
and `update()` (src/health_check/mod.rs lines 30-33) overwrites it with
`SystemTime::now()`, a clock reading at or after the epoch (a nonnegative
number of nanoseconds). -/
inductive ClockReachable : Int → Prop
  | init : ClockReachable LAST_DB_WRITE_init
  | update (prev : Int) (now : Nat) :
      ClockReachable prev → ClockReachable (now : Int)

/-- Method `SystemTime::duration_since`: the elapsed duration when `earlier`
is not later than `t`, and `none` (the `Err`/panic-on-`unwrap` branch)
otherwise. -/
def duration_since (t earlier : Int) : Option Int :=
  if earlier ≤ t then some (t - earlier) else none

/-- The bytes `respond` (src/health_check/unix.rs lines 57-70) writes for a
clock value `last`:
`last_db_guard.duration_since(UNIX_EPOCH).unwrap().as_secs().to_ne_bytes()`.
The result is `none` exactly when the `unwrap` would panic. -/
def respond_bytes (last : Int) : Option (List Nat) :=
  (duration_since last 0).map fun d => to_ne_bytes (d.toNat / NANOS_PER_SEC)

/-- Outcomes of one iteration of the serve loop's I/O operations: the
accept, the readiness waits, the one-byte query read (its `Ok` value is the
byte count, `0` meaning the peer closed), and the reply write.
`loopWriteReady` is the `writable()` wait in `listen_loop` (line 48),
`respondWriteReady` the one inside `respond` (line 58). -/
structure ServerConn where
  accept : Except IOError Unit
  readReady : Except IOError Unit
  tryRead : Except IOError Nat
  loopWriteReady : Except IOError Unit
  respondWriteReady : Except IOError Unit
  tryWrite : Except IOError Nat

/-- Server reply `respond` (src/health_check/unix.rs lines 57-70): wait
writable, then write the clock bytes; each failure is tagged and propagated
with `?`. -/
def respond (c : ServerConn) : Except HealthError Unit := do
  let _ ← c.respondWriteReady.mapError HealthError.SocketReady
  let _ ← c.tryWrite.mapError HealthError.WriteSocket
  pure ()

/-- What one iteration of `listen_loop` does to the loop: `next` for the
`continue` paths, `fatal e` when the iteration makes `listen_loop` return
`Err(e)` (which propagates out of `listen`). -/
inductive StepResult where
  | next
  | fatal (e : HealthError)
deriving DecidableEq, Repr

/-- One iteration of `listen_loop` (src/health_check/unix.rs lines 39-55):
accept (failure is `HealthError::Create` and returned), wait readable
(failure returned as `SocketReady`), try to read the query byte — `Ok(0)`
and `WouldBlock` continue the loop, any other read error is returned as
`ReadSocket`; on a read byte, wait writable and run `respond`, whose errors
are propagated by `?`. -/
def listen_step (c : ServerConn) : StepResult :=
  match c.accept with
  | .error e => .fatal (HealthError.Create e)
  | .ok _ =>
    match c.readReady with
    | .error e => .fatal (HealthError.SocketReady e)
    | .ok _ =>
      match c.tryRead with
      | .ok 0 => .next
      | .ok (_ + 1) =>
        match c.loopWriteReady with
        | .error e => .fatal (HealthError.SocketReady e)
        | .ok _ =>
          match respond c with
          | .ok _ => .next
          | .error e => .fatal e
      | .error e =>
        if e.kind = IOErrorKind.wouldBlock then .next
        else .fatal (HealthError.ReadSocket e)

/-- One entry of the per-cycle error batch: a location (its `name` tag is
what the webhook uses) paired with the display of its
`HandleLocationError` (src/main.rs `handle_location_error`). -/
structure LocationError where
  location : String
  message : String
deriving DecidableEq, Repr

/-- Alert state machine `handle_location_errors` (src/main.rs lines
204-222), made pure: given the cycle's error batch, the `errors_reported`
flag, and whether the `webhook.alert` / `webhook.resolved` calls would
return `Ok` (`alertOk` / `resolvedOk`), it returns the new flag together
with how many alert sends and how many resolved sends were attempted. -/
def handle_location_errors (errors : List LocationError)
    (errors_reported : Bool) (alertOk resolvedOk : Bool) :
    Bool × Nat × Nat :=
  match errors.isEmpty, errors_reported with
  | false, false => (if alertOk then true else false, 1, 0)
  | true, true => (if resolvedOk then false else true, 0, 1)
  | _, _ => (errors_reported, 0, 0)

/-- Constant `twilight_validate::embed::FIELD_COUNT`, the Discord embed
field cap (25), imported by src/webhook.rs. -/
def FIELD_COUNT : Nat := 25

/-- An embed field as built by `EmbedFieldBuilder::new(name, value)`. -/
structure EmbedField where
  name : String
  value : String
deriving DecidableEq, Repr

/-- The fields of the alert embed built by `Webhook::alert`
(src/webhook.rs lines 38-53):
`errors.iter().take(FIELD_COUNT)` mapped through
`EmbedFieldBuilder::new(location.name, error.to_string())`, each appended
to the embed in order. -/
def alert_fields (errors : List LocationError) : List EmbedField :=
  (errors.take FIELD_COUNT).map fun e => ⟨e.location, e.message⟩

theorem u64_from_to_ne_bytes (n : Nat) (h : n < 2 ^ 64) :
    u64_from_ne_bytes (to_ne_bytes n) = n := by
  simp only [u64_from_ne_bytes, to_ne_bytes, List.take, List.foldr]
  omega

theorem check_impl_okConn (now : Nat) (bytes : List Nat) :
    check_impl (okConn now bytes) =
      .ok (if now < u64_from_ne_bytes (read_into_buf bytes) * NANOS_PER_SEC
           then true
           else decide (now - u64_from_ne_bytes (read_into_buf bytes) *
                  NANOS_PER_SEC < HEALTHY_UPDATE_TIME)) := by
  have h : check_impl (okConn now bytes) =
      if now < u64_from_ne_bytes (read_into_buf bytes) * NANOS_PER_SEC
      then pure true
      else pure (decide (now - u64_from_ne_bytes (read_into_buf bytes) *
             NANOS_PER_SEC < HEALTHY_UPDATE_TIME)) := rfl
  rw [h]
  split <;> rfl

theorem read_into_buf_of_length_eq (bytes : List Nat)
    (h : bytes.length = 8) : read_into_buf bytes = bytes := by
  simp [read_into_buf, h, List.take_of_length_le]

theorem to_ne_bytes_length (n : Nat) : (to_ne_bytes n).length = 8 := rfl

/-- C1: for every poll cycle, `handle_location_errors` follows the
edge-triggered transition table (with the webhook sends succeeding): from
flag clear, a non-empty batch attempts exactly one alert send, no resolved
send, and sets the flag; a non-empty batch with the flag already set
attempts zero sends and keeps the flag; an empty batch with the flag set
attempts exactly one resolved send and clears the flag; an empty batch with
the flag clear attempts zero sends. -/
theorem handle_location_errors_transition_table
    (errors : List LocationError) :
    (errors.isEmpty = false →
       handle_location_errors errors false true true = (true, 1, 0)) ∧
    (errors.isEmpty = false →
       handle_location_errors errors true true true = (true, 0, 0)) ∧
    (errors.isEmpty = true →
       handle_location_errors errors true true true = (false, 0, 1)) ∧
    (errors.isEmpty = true →
       handle_location_errors errors false true true = (false, 0, 0)) := by
  refine ⟨fun h => ?_, fun h => ?_, fun h => ?_, fun h => ?_⟩ <;>
    simp [handle_location_errors, h]

theorem handle_location_errors_transition_table_witness :
    handle_location_errors [⟨"loc", "err"⟩] false true true = (true, 1, 0) ∧
    handle_location_errors [⟨"loc", "err"⟩] true true true = (true, 0, 0) ∧
    handle_location_errors [] true true true = (false, 0, 1) ∧
    handle_location_errors [] false true true = (false, 0, 0) :=
  ⟨(handle_location_errors_transition_table [⟨"loc", "err"⟩]).1 rfl,
   (handle_location_errors_transition_table [⟨"loc", "err"⟩]).2.1 rfl,
   (handle_location_errors_transition_table []).2.2.1 rfl,
   (handle_location_errors_transition_table []).2.2.2 rfl⟩

/-- C5: if the webhook send fails, `handle_location_errors` leaves the
`errors_reported` flag unchanged — a failed alert leaves the flag `false`
(while one alert send was attempted), so the next cycle's fresh non-empty
batch again attempts exactly one alert; a failed resolved send leaves the
flag `true` (while one resolved send was attempted), so the next cycle's
fresh empty batch again attempts exactly one resolved send. -/
theorem handle_location_errors_send_failure_retries
    (errors fresh : List LocationError) (b a r : Bool) :
    (errors.isEmpty = false →
       handle_location_errors errors false false b = (false, 1, 0) ∧
       (fresh.isEmpty = false →
          (handle_location_errors fresh false a r).2.1 = 1)) ∧
    (errors.isEmpty = true →
       handle_location_errors errors true b false = (true, 0, 1) ∧
       (fresh.isEmpty = true →
          (handle_location_errors fresh true a r).2.2 = 1)) := by
  refine ⟨fun h => ⟨?_, fun hf => ?_⟩, fun h => ⟨?_, fun hf => ?_⟩⟩
  · simp [handle_location_errors, h]
  · simp [handle_location_errors, hf]
  · simp [handle_location_errors, h]
  · simp [handle_location_errors, hf]

theorem handle_location_errors_send_failure_retries_witness :
    (handle_location_errors [⟨"loc", "err"⟩] false false true
        = (false, 1, 0) ∧
      (handle_location_errors [⟨"loc", "e2"⟩] false true true).2.1 = 1) ∧
    (handle_location_errors [] true true false = (true, 0, 1) ∧
      (handle_location_errors [] true true true).2.2 = 1) :=
  ⟨⟨((handle_location_errors_send_failure_retries [⟨"loc", "err"⟩]
        [⟨"loc", "e2"⟩] true true true).1 rfl).1,
    ((handle_location_errors_send_failure_retries [⟨"loc", "err"⟩]
        [⟨"loc", "e2"⟩] true true true).1 rfl).2 rfl⟩,
   ⟨((handle_location_errors_send_failure_retries [] [] true true
        true).2 rfl).1,
    ((handle_location_errors_send_failure_retries [] [] true true
        true).2 rfl).2 rfl⟩⟩

/-- C9: the alert embed's field list is exactly the batch entries in batch
order — field `i` holds the `i`-th entry's location name and error
description — capped to `FIELD_COUNT`: its length is the minimum of the
batch length and `FIELD_COUNT`, so entries beyond the cap are dropped and
no extra (truncation-indicator) field exists. -/
theorem alert_fields_in_order_capped (errors : List LocationError) :
    (alert_fields errors).length = min errors.length FIELD_COUNT ∧
    ∀ i (hi : i < (alert_fields errors).length) (hj : i < errors.length),
      (alert_fields errors).get ⟨i, hi⟩ =
        ⟨(errors.get ⟨i, hj⟩).location, (errors.get ⟨i, hj⟩).message⟩ := by
  constructor
  · simp [alert_fields, List.length_take, Nat.min_comm]
  · intro i hi hj
    simp [alert_fields, List.get_eq_getElem, List.getElem_map,
      List.getElem_take]

theorem alert_fields_in_order_capped_witness :
    (alert_fields [⟨"loc", "err"⟩]).length
        = min ([⟨"loc", "err"⟩] : List LocationError).length FIELD_COUNT ∧
    (alert_fields [⟨"loc", "err"⟩]).get ⟨0, by decide⟩
        = ⟨"loc", "err"⟩ :=
  ⟨(alert_fields_in_order_capped [⟨"loc", "err"⟩]).1,
   (alert_fields_in_order_capped [⟨"loc", "err"⟩]).2 0 (by decide)
     (by decide)⟩

/-- C2: when the decoded heartbeat timestamp is not in the future, the
probe reports healthy exactly when the elapsed time since it is strictly
less than `HEALTHY_UPDATE_TIME`; at elapsed exactly `HEALTHY_UPDATE_TIME`
the verdict is unhealthy (the boundary is exclusive on the healthy side). -/
theorem check_impl_threshold_boundary (now secs : Nat)
    (hsecs : secs < 2 ^ 64) (hpast : secs * NANOS_PER_SEC ≤ now) :
    check_impl (okConn now (to_ne_bytes secs)) =
        .ok (decide (now - secs * NANOS_PER_SEC < HEALTHY_UPDATE_TIME)) ∧
    (now - secs * NANOS_PER_SEC = HEALTHY_UPDATE_TIME →
       check_impl (okConn now (to_ne_bytes secs)) = .ok false) := by
  have hmain : check_impl (okConn now (to_ne_bytes secs)) =
      .ok (decide (now - secs * NANOS_PER_SEC < HEALTHY_UPDATE_TIME)) := by
    rw [check_impl_okConn,
      read_into_buf_of_length_eq _ (to_ne_bytes_length secs),
      u64_from_to_ne_bytes secs hsecs, if_neg (by omega)]
  refine ⟨hmain, fun hEq => ?_⟩
  rw [hmain, hEq]
  simp

theorem check_impl_threshold_boundary_witness :
    check_impl (okConn 180000000000 (to_ne_bytes 0)) = .ok false :=
  (check_impl_threshold_boundary 180000000000 0 (by norm_num)
      (by norm_num)).2
    (by norm_num [NANOS_PER_SEC, HEALTHY_UPDATE_TIME])

theorem check_impl_run_okConn (now : Nat) (bytes : List Nat) :
    check_impl_run (okConn now bytes) =
      (if I64_MAX < u64_from_ne_bytes (read_into_buf bytes) then
         ProbeOutcome.panic
       else if now < u64_from_ne_bytes (read_into_buf bytes) * NANOS_PER_SEC
       then ProbeOutcome.ok true
       else ProbeOutcome.ok
         (decide (now - u64_from_ne_bytes (read_into_buf bytes) *
            NANOS_PER_SEC < HEALTHY_UPDATE_TIME))) := rfl

/-- C6 counterexample: a decoded heartbeat timestamp of
18446744073709551615 seconds is strictly in the future relative to a 2026
prober clock, yet the probe does not report healthy: the seconds exceed
`i64::MAX`, so `SystemTime::UNIX_EPOCH + Duration::from_secs(secs)`
panics instead of producing a verdict. -/
theorem future_skew_panic_cex :
    1767225600 * NANOS_PER_SEC < 18446744073709551615 * NANOS_PER_SEC ∧
    check_impl_run (okConn (1767225600 * NANOS_PER_SEC)
        (to_ne_bytes 18446744073709551615)) = ProbeOutcome.panic ∧
    ProbeOutcome.panic ≠ ProbeOutcome.ok true := by
  refine ⟨by norm_num [NANOS_PER_SEC], ?_, by decide⟩
  decide

/-- C6 (amended): a decoded heartbeat timestamp strictly in the future
relative to the prober's clock makes the probe report healthy whenever the
decoded seconds fit in `i64` (so the skew tolerance holds up to
`i64::MAX` seconds, not for arbitrary magnitude); above `i64::MAX` the
probe instead panics in `SystemTime::UNIX_EPOCH + Duration::from_secs`. -/
theorem check_impl_future_healthy_within_i64 (now secs : Nat)
    (hsecs : secs ≤ I64_MAX) (hfuture : now < secs * NANOS_PER_SEC) :
    check_impl_run (okConn now (to_ne_bytes secs)) = ProbeOutcome.ok true ∧
    ∀ s, I64_MAX < s → s < 2 ^ 64 →
      check_impl_run (okConn now (to_ne_bytes s)) = ProbeOutcome.panic := by
  constructor
  · rw [check_impl_run_okConn,
      read_into_buf_of_length_eq _ (to_ne_bytes_length secs),
      u64_from_to_ne_bytes secs (by simp [I64_MAX] at hsecs; omega),
      if_neg (by omega), if_pos hfuture]
  · intro s hs hs64
    rw [check_impl_run_okConn,
      read_into_buf_of_length_eq _ (to_ne_bytes_length s),
      u64_from_to_ne_bytes s hs64, if_pos hs]

theorem check_impl_future_healthy_within_i64_witness :
    check_impl_run (okConn 0 (to_ne_bytes 9223372036854775807))
        = ProbeOutcome.ok true ∧
    check_impl_run (okConn 0 (to_ne_bytes 18446744073709551614))
        = ProbeOutcome.panic :=
  ⟨(check_impl_future_healthy_within_i64 0 9223372036854775807
      (by norm_num [I64_MAX]) (by norm_num [NANOS_PER_SEC])).1,
   (check_impl_future_healthy_within_i64 0 9223372036854775807
      (by norm_num [I64_MAX]) (by norm_num [NANOS_PER_SEC])).2
     18446744073709551614 (by norm_num [I64_MAX]) (by norm_num)⟩

/-- C7 counterexample: an 8-byte reply decoding to 9223372036854775808
seconds (`i64::MAX` + 1) makes the probe panic; the process exits with the
panic status 101, which is neither 0 nor 1. -/
theorem check_panic_exit_code_cex :
    check_run (okConn (1767225600 * NANOS_PER_SEC)
        (to_ne_bytes 9223372036854775808)) = PANIC_EXIT ∧
    PANIC_EXIT ≠ HEALTHY ∧ PANIC_EXIT ≠ UNHEALTHY := by
  refine ⟨?_, by decide, by decide⟩
  decide

/-- C7 (amended): unless the reply decodes to a seconds value above
`i64::MAX` — in which case the probe panics and the process aborts with
the panic status 101 rather than a verdict — the probe invocation exits
with code 0 (`HEALTHY`) or 1 (`UNHEALTHY`) and no other value, and every
`HealthError` failure path (connection refused, readiness error, read or
write I/O error), whatever its variant, collapses to exit code 1. -/
theorem check_run_exit_codes (c : ProbeConn) :
    (check_impl_run c ≠ ProbeOutcome.panic →
       (check_run c = HEALTHY ∨ check_run c = UNHEALTHY)) ∧
    (∀ e, check_impl_run c = .error e → check_run c = UNHEALTHY) ∧
    (check_impl_run c = ProbeOutcome.panic → check_run c = PANIC_EXIT) := by
  refine ⟨fun hnp => ?_, fun e he => ?_, fun hp => ?_⟩
  · cases h : check_impl_run c with
    | ok b => cases b <;> simp [check_run, h]
    | error e => simp [check_run, h]
    | panic => exact absurd h hnp
  · simp [check_run, he]
  · simp [check_run, hp]

theorem check_run_exit_codes_witness :
    (check_run (okConn 0 (to_ne_bytes 0)) = HEALTHY ∨
       check_run (okConn 0 (to_ne_bytes 0)) = UNHEALTHY) ∧
    check_run { connect := .error ⟨IOErrorKind.other⟩, writeReady := .ok (),
                tryWritePing := .ok 1, readReady := .ok (),
                tryRead := .ok [], now := 0 } = UNHEALTHY ∧
    check_run (okConn 0 (to_ne_bytes 18446744073709551615)) = PANIC_EXIT :=
  ⟨(check_run_exit_codes (okConn 0 (to_ne_bytes 0))).1 (by decide),
   (check_run_exit_codes _).2.1
     (HealthError.ConnectSocket ⟨IOErrorKind.other⟩) rfl,
   (check_run_exit_codes (okConn 0 (to_ne_bytes 18446744073709551615))).2.2
     (by decide)⟩

/-- C8: the heartbeat clock starts at the Unix epoch, so `respond` writes
the encoding of 0 seconds, the probe decodes seconds-since-epoch 0, and —
provided the prober's clock is at least `HEALTHY_UPDATE_TIME` past the
epoch — the probe reports unhealthy (exit code 1). -/
theorem initial_state_probe_unhealthy (now : Nat)
    (h : HEALTHY_UPDATE_TIME ≤ now) :
    respond_bytes LAST_DB_WRITE_init = some (to_ne_bytes 0) ∧
    u64_from_ne_bytes (to_ne_bytes 0) = 0 ∧
    check (okConn now (to_ne_bytes 0)) = UNHEALTHY := by
  refine ⟨rfl, rfl, ?_⟩
  have himpl : check_impl (okConn now (to_ne_bytes 0)) = .ok false := by
    rw [check_impl_okConn,
      read_into_buf_of_length_eq _ (to_ne_bytes_length 0),
      u64_from_to_ne_bytes 0 (by norm_num), if_neg (by omega)]
    congr 1
    exact decide_eq_false (by omega)
  simp [check, himpl]

theorem initial_state_probe_unhealthy_witness :
    respond_bytes LAST_DB_WRITE_init = some (to_ne_bytes 0) ∧
    u64_from_ne_bytes (to_ne_bytes 0) = 0 ∧
    check (okConn 180000000000 (to_ne_bytes 0)) = UNHEALTHY :=
  initial_state_probe_unhealthy 180000000000
    (by norm_num [HEALTHY_UPDATE_TIME, NANOS_PER_SEC])

/-- C10: every reachable heartbeat-clock value is at or after the Unix
epoch, so the `duration_since(UNIX_EPOCH)` in `respond` succeeds and its
`unwrap` never hits the panic branch: `respond_bytes` is always `some`. -/
theorem clock_reachable_no_panic (t : Int) (h : ClockReachable t) :
    0 ≤ t ∧ (respond_bytes t).isSome = true := by
  have h0 : 0 ≤ t := by
    induction h with
    | init => simp [LAST_DB_WRITE_init]
    | update prev now hp ih => exact Int.natCast_nonneg now
  refine ⟨h0, ?_⟩
  simp [respond_bytes, duration_since, h0]

theorem clock_reachable_no_panic_witness :
    0 ≤ LAST_DB_WRITE_init ∧
    (respond_bytes LAST_DB_WRITE_init).isSome = true :=
  clock_reachable_no_panic LAST_DB_WRITE_init ClockReachable.init

/-- C3 counterexample: on an accepted connection whose query read fails
with a non-WouldBlock I/O error, one iteration of the serve loop does not
continue to the next accept: it ends the loop fatally with `ReadSocket`,
which propagates out of `listen`. -/
theorem listen_step_read_error_fatal_cex :
    listen_step { accept := .ok (), readReady := .ok (),
                  tryRead := .error ⟨IOErrorKind.other⟩,
                  loopWriteReady := .ok (), respondWriteReady := .ok (),
                  tryWrite := .ok 8 }
      = .fatal (HealthError.ReadSocket ⟨IOErrorKind.other⟩) ∧
    StepResult.fatal (HealthError.ReadSocket ⟨IOErrorKind.other⟩)
      ≠ StepResult.next :=
  ⟨rfl, by decide⟩

/-- C3 amended: in the serve loop only the transient paths continue —
peer closed before sending (0-byte read) and WouldBlock; a non-WouldBlock
read error, a write error inside `respond`, and an accept failure all end
the loop fatally with the corresponding `HealthError`, which propagates
out of `listen` as an error. -/
theorem listen_step_error_handling (c : ServerConn) :
    (∀ e, c.accept = .error e →
       listen_step c = .fatal (HealthError.Create e)) ∧
    (c.accept = .ok () → c.readReady = .ok () → c.tryRead = .ok 0 →
       listen_step c = .next) ∧
    (∀ e, c.accept = .ok () → c.readReady = .ok () →
       c.tryRead = .error e → e.kind = IOErrorKind.wouldBlock →
       listen_step c = .next) ∧
    (∀ e, c.accept = .ok () → c.readReady = .ok () →
       c.tryRead = .error e → e.kind ≠ IOErrorKind.wouldBlock →
       listen_step c = .fatal (HealthError.ReadSocket e)) ∧
    (∀ e n, c.accept = .ok () → c.readReady = .ok () →
       c.tryRead = .ok (n + 1) → c.loopWriteReady = .ok () →
       c.respondWriteReady = .ok () → c.tryWrite = .error e →
       listen_step c = .fatal (HealthError.WriteSocket e)) := by
  refine ⟨fun e he => ?_, fun h1 h2 h3 => ?_, fun e h1 h2 h3 hk => ?_,
    fun e h1 h2 h3 hk => ?_, fun e n h1 h2 h3 h4 h5 h6 => ?_⟩
  · simp [listen_step, he]
  · simp [listen_step, h1, h2, h3]
  · simp [listen_step, h1, h2, h3, hk]
  · simp [listen_step, h1, h2, h3, hk]
  · have hr : respond c = .error (HealthError.WriteSocket e) := by
      unfold respond
      rw [h5, h6]
      rfl
    simp [listen_step, h1, h2, h3, h4, hr]

theorem listen_step_error_handling_witness :
    listen_step { accept := .error ⟨IOErrorKind.other⟩,
                  readReady := .ok (), tryRead := .ok 1,
                  loopWriteReady := .ok (), respondWriteReady := .ok (),
                  tryWrite := .ok 8 }
      = .fatal (HealthError.Create ⟨IOErrorKind.other⟩) ∧
    listen_step { accept := .ok (), readReady := .ok (),
                  tryRead := .ok 0, loopWriteReady := .ok (),
                  respondWriteReady := .ok (), tryWrite := .ok 8 }
      = .next ∧
    listen_step { accept := .ok (), readReady := .ok (),
                  tryRead := .error ⟨IOErrorKind.wouldBlock⟩,
                  loopWriteReady := .ok (), respondWriteReady := .ok (),
                  tryWrite := .ok 8 }
      = .next ∧
    listen_step { accept := .ok (), readReady := .ok (),
                  tryRead := .ok 1, loopWriteReady := .ok (),
                  respondWriteReady := .ok (),
                  tryWrite := .error ⟨IOErrorKind.other⟩ }
      = .fatal (HealthError.WriteSocket ⟨IOErrorKind.other⟩) :=
  ⟨(listen_step_error_handling _).1 _ rfl,
   (listen_step_error_handling _).2.1 rfl rfl rfl,
   (listen_step_error_handling _).2.2.1 _ rfl rfl rfl rfl,
   (listen_step_error_handling _).2.2.2.2 _ 0 rfl rfl rfl rfl rfl rfl⟩

/-- C4 counterexample: with the prober's clock at 2026-01-01
(1767225600 seconds past the epoch) and a reply of only four 0xFF bytes,
the probe decodes 4294967295 seconds — a future instant — and reports
healthy (exit code 0), not unhealthy. -/
theorem short_reply_not_rejected_cex :
    ([255, 255, 255, 255] : List Nat).length < 8 ∧
    check (okConn (1767225600 * NANOS_PER_SEC) [255, 255, 255, 255])
      = HEALTHY := by
  constructor
  · decide
  · rfl

/-- C4 amended: a reply shorter than 8 bytes is not detected as malformed:
the probe's buffer is the short reply zero-padded to 8 bytes, and the
probe decodes it and applies the normal verdict, exactly as if the
zero-padded reply had arrived in full — so the verdict depends on the
decoded value rather than being unconditionally unhealthy. -/
theorem short_reply_decoded_zero_padded (now : Nat) (bytes : List Nat)
    (h : bytes.length < 8) :
    read_into_buf bytes = bytes ++ List.replicate (8 - bytes.length) 0 ∧
    check_impl (okConn now bytes)
      = check_impl
          (okConn now (bytes ++ List.replicate (8 - bytes.length) 0)) := by
  have hpad : read_into_buf bytes
      = bytes ++ List.replicate (8 - bytes.length) 0 := by
    unfold read_into_buf
    rw [List.take_of_length_le (Nat.le_of_lt h)]
  have hlen : (bytes ++ List.replicate (8 - bytes.length) 0).length = 8 := by
    simp
    omega
  refine ⟨hpad, ?_⟩
  rw [check_impl_okConn, check_impl_okConn, hpad,
    read_into_buf_of_length_eq _ hlen]

theorem short_reply_decoded_zero_padded_witness :
    read_into_buf [255]
        = [255] ++ List.replicate (8 - ([255] : List Nat).length) 0 ∧
    check_impl (okConn 0 [255])
      = check_impl
          (okConn 0
            ([255] ++ List.replicate (8 - ([255] : List Nat).length) 0)) :=
  short_reply_decoded_zero_padded 0 [255] (by decide)

end Swat
